import Mathlib

/-!
Verification of the status-polling and retry state machine of the
recall-meeting-bot repository.

Server side (`src/server/index.js`): the Express handlers
`GET /api/bot/:botId` and `GET /api/bot/:botId/recordings` each wrap a
provider fetch in a recursive retry loop sharing a mutable `currentTry`
counter, and map terminal errors through `handleApiError`.

Client side (`src/unnamed/part_004` and `src/src/App.tsx`): a React
component arms a repeating 5-second interval per bot, folds provider
responses into UI state, stops on terminal phases or on more than five
consecutive errors, and runs a separate delayed recordings-fetch loop.

The provider is modelled as a trace (list) of responses consumed one per
attempt; each retry loop is a structural recursion on the trace returning
`none` when the trace is too short to reach a terminal outcome.  React
state setters are modelled as synchronous updates to an explicit record,
and timers as handles in an explicit timer system.
-/

/-- A recording descriptor as in the client `Recording` interface
(`id`, `status`, optional `download_url`, `created_at`, optional
`duration`). -/
structure Recording where
  id : String
  status : String
  download_url : Option String := none
  created_at : String := ""
  duration : Option Nat := none
deriving DecidableEq, Repr

/-- The provider bot payload as used by the code: a `status` string and an
optionally present `recordings` array (`response.data.recordings || []`). -/
structure BotData where
  status : String
  recordings : Option (List Recording) := none
deriving DecidableEq, Repr

/-- The body of a provider error response; `detail` and `message` are the
fields `handleApiError` reads, either of which may be absent. -/
structure ErrBody where
  detail : Option String := none
  message : Option String := none
deriving DecidableEq, Repr

/-- An axios error response: HTTP status plus an optional body.  `data_ =
none` models `error.response.data` being absent or falsy. -/
structure ErrResponse where
  status : Nat
  data_ : Option ErrBody := none
deriving DecidableEq, Repr

/-- An axios error: an optional HTTP response (absent for network-level
failures) and the error's own `message` string. -/
structure ApiError where
  response : Option ErrResponse := none
  message : String := ""
deriving DecidableEq, Repr

/-- One provider response in a trace: either a payload or a thrown error. -/
inductive ApiResult where
  | ok (data : BotData)
  | err (e : ApiError)
deriving DecidableEq, Repr

instance {ε α : Type} [DecidableEq ε] [DecidableEq α] : DecidableEq (Except ε α) := fun
  | .ok a, .ok b =>
    match decEq a b with
    | isTrue h => isTrue (congrArg Except.ok h)
    | isFalse h => isFalse fun hh => h (Except.ok.inj hh)
  | .ok _, .error _ => isFalse fun hh => Except.noConfusion hh
  | .error _, .ok _ => isFalse fun hh => Except.noConfusion hh
  | .error a, .error b =>
    match decEq a b with
    | isTrue h => isTrue (congrArg Except.error h)
    | isFalse h => isFalse fun hh => h (Except.error.inj hh)

/-- Outcome of running one of the server retry loops over a trace: the
value returned or error thrown, the number of provider attempts made, and
the number of `delay(RETRY_DELAY)` suspensions taken. -/
structure RunOutcome (α : Type) where
  result : Except ApiError α
  attempts : Nat
  delays : Nat
deriving DecidableEq, Repr

/-- Account one further attempt preceded by one delay, as happens when a
retry loop recurses after `await delay(RETRY_DELAY)`. -/
def bumpRun {α : Type} (o : RunOutcome α) : RunOutcome α :=
  { o with attempts := o.attempts + 1, delays := o.delays + 1 }

/-- JavaScript `a || b` on a string (empty string is falsy). -/
def jsOrStr (a b : String) : String := if a = "" then b else a

/-- JavaScript `a || b` where `a` is a possibly absent string field. -/
def jsOrOpt (a : Option String) (b : String) : String :=
  match a with
  | some s => jsOrStr s b
  | none => b

/-- The result shape of `handleApiError`: a message and a boundary HTTP
status code. -/
structure ApiErrorMapping where
  error : String
  status : Nat
deriving DecidableEq, Repr

/-- `handleApiError` from `src/server/index.js`: when `error.response?.data`
is truthy, use `data.detail || data.message || 'API Error'` and the
response's status; otherwise `error.message || 'Unknown error occurred'`
with status 500. -/
def handleApiError (e : ApiError) : ApiErrorMapping :=
  match e.response with
  | some r =>
    match r.data_ with
    | some d => { error := jsOrOpt d.detail (jsOrOpt d.message "API Error"), status := r.status }
    | none => { error := jsOrStr e.message "Unknown error occurred", status := 500 }
  | none => { error := jsOrStr e.message "Unknown error occurred", status := 500 }

/-- The check `error.response?.status === 404` in `getBotStatus`. -/
def is404 (e : ApiError) : Bool :=
  match e.response with
  | some r => r.status == 404
  | none => false

namespace Server

/-- The recursive `getBotStatus` closure of `GET /api/bot/:botId`
(`src/server/index.js` lines 165-206), run over a provider trace.
`currentTry` is the single mutable counter shared by the joining branch
and the failure branch.  A "joining" payload with `currentTry <
MAX_RETRIES` increments the counter, delays, and re-polls; a 404 error is
re-thrown at once; any other error increments the counter and re-polls
while it stays below `MAX_RETRIES`, else is re-thrown. -/
def getBotStatus (maxRetries currentTry : Nat) :
    List ApiResult → Option (RunOutcome BotData)
  | [] => none
  | .ok data :: rest =>
    if data.status = "joining" ∧ currentTry < maxRetries then
      (getBotStatus maxRetries (currentTry + 1) rest).map bumpRun
    else
      some ⟨Except.ok data, 1, 0⟩
  | .err e :: rest =>
    if is404 e then
      some ⟨Except.error e, 1, 0⟩
    else if currentTry + 1 < maxRetries then
      (getBotStatus maxRetries (currentTry + 1) rest).map bumpRun
    else
      some ⟨Except.error e, 1, 0⟩

/-- The recursive `getRecordings` closure of
`GET /api/bot/:botId/recordings` (`src/server/index.js` lines 228-268).
An empty `response.data.recordings || []` with budget remaining delays and
re-polls; every error (404 included: there is no 404 special case here)
increments the counter and re-polls while it stays below `MAX_RETRIES`. -/
def getRecordings (maxRetries currentTry : Nat) :
    List ApiResult → Option (RunOutcome (List Recording))
  | [] => none
  | .ok data :: rest =>
    if (data.recordings.getD []).isEmpty = true ∧ currentTry < maxRetries then
      (getRecordings maxRetries (currentTry + 1) rest).map bumpRun
    else
      some ⟨Except.ok (data.recordings.getD []), 1, 0⟩
  | .err e :: rest =>
    if currentTry + 1 < maxRetries then
      (getRecordings maxRetries (currentTry + 1) rest).map bumpRun
    else
      some ⟨Except.error e, 1, 0⟩

/-- The body of an HTTP response produced by a relay endpoint. -/
inductive ResponseBody where
  | payload (data : BotData)
  | recordingsList (recordings : List Recording)
  | errorBody (message : String)
deriving DecidableEq, Repr

/-- A boundary HTTP response: status code and body. -/
structure HttpResponse where
  status : Nat
  body : ResponseBody
deriving DecidableEq, Repr

/-- The `GET /api/bot/:botId` handler: on success `res.json(botData)`
(status 200), on a thrown error `res.status(status).json({ error })` via
`handleApiError`. -/
def botStatusEndpoint (maxRetries : Nat) (trace : List ApiResult) :
    Option HttpResponse :=
  (getBotStatus maxRetries 0 trace).map fun o =>
    match o.result with
    | .ok data => ⟨200, .payload data⟩
    | .error e => ⟨(handleApiError e).status, .errorBody (handleApiError e).error⟩

/-- The `GET /api/bot/:botId/recordings` handler: on success
`res.json({ recordings })`, on a thrown error the `handleApiError`
mapping. -/
def recordingsEndpoint (maxRetries : Nat) (trace : List ApiResult) :
    Option HttpResponse :=
  (getRecordings maxRetries 0 trace).map fun o =>
    match o.result with
    | .ok recs => ⟨200, .recordingsList recs⟩
    | .error e => ⟨(handleApiError e).status, .errorBody (handleApiError e).error⟩

/-- Modelled from the spec: a Bot Lifecycle Tracker keeping "separate
counters for still-joining vs. request-failed" as section 4.2 of the
specification describes, for comparison with `Server.getBotStatus` (which
the source implements with a single shared counter). -/
def specTwoCounterTracker (maxRetries joinTry failTry : Nat) :
    List ApiResult → Option (RunOutcome BotData)
  | [] => none
  | .ok data :: rest =>
    if data.status = "joining" ∧ joinTry < maxRetries then
      (specTwoCounterTracker maxRetries (joinTry + 1) failTry rest).map bumpRun
    else
      some ⟨Except.ok data, 1, 0⟩
  | .err e :: rest =>
    if is404 e then
      some ⟨Except.error e, 1, 0⟩
    else if failTry + 1 < maxRetries then
      (specTwoCounterTracker maxRetries joinTry (failTry + 1) rest).map bumpRun
    else
      some ⟨Except.error e, 1, 0⟩

end Server

/-- The browser timer environment: the next handle `setInterval` will
return, and the handles of currently active timers. -/
structure TimerSys where
  nextHandle : Nat
  active : List Nat
deriving DecidableEq, Repr

/-- `setInterval(cb, ms)`: allocate a fresh handle and activate it. -/
def setIntervalSys (sys : TimerSys) : Nat × TimerSys :=
  (sys.nextHandle, ⟨sys.nextHandle + 1, sys.active ++ [sys.nextHandle]⟩)

/-- `clearInterval(h)`: deactivate the timer with handle `h`. -/
def clearIntervalSys (sys : TimerSys) (h : Nat) : TimerSys :=
  { sys with active := sys.active.erase h }

/-- The React state of the `part_004` client component: `status`,
`recordings`, `pollingInterval`, `retryCount` and `error` hooks.  State
setters are modelled as synchronous updates to this record. -/
structure ClientState where
  status : String := ""
  recordings : List Recording := []
  pollingInterval : Option Nat := none
  retryCount : Nat := 0
  error : Option String := none
deriving DecidableEq, Repr

/-- One backend response observed by a polling tick: the payload of
`GET /api/bot/:id`, or a caught error with its derived message. -/
inductive TickInput where
  | ok (data : BotData)
  | err (message : String)
deriving DecidableEq, Repr

/-- Observable side effects of the client beyond its own state: clearing
an interval timer and scheduling a delayed recordings fetch via
`setTimeout(() => getRecordings(id), delayMs)`. -/
inductive ClientEvent where
  | clearedTimer (h : Nat)
  | scheduledRecordingsFetch (delayMs : Nat)
deriving DecidableEq, Repr

namespace Client

/-- `startPolling` from `src/unnamed/part_004` (lines 57-109): clear any
interval recorded in `pollingInterval`, arm a fresh one, and record its
handle. -/
def startPolling (s : ClientState) (sys : TimerSys) : ClientState × TimerSys :=
  let sys1 :=
    match s.pollingInterval with
    | some h => clearIntervalSys sys h
    | none => sys
  let p := setIntervalSys sys1
  ({ s with pollingInterval := some p.1 }, p.2)

/-- One tick of the `part_004` polling interval with handle `h` (the
`setInterval` callback, lines 60-105): on a successful response clear the
error, branch on the status string ("left"/"ended" stop the timer and
schedule a recordings fetch in 10000 ms), adopt a non-empty recordings
list, and reset `retryCount`; on a failed request increment `retryCount`,
stopping with a persistent error once it exceeds 5 and otherwise showing
an attempt counter in the status line. -/
def pollTick (h : Nat) (input : TickInput) (s : ClientState) (sys : TimerSys) :
    ClientState × TimerSys × List ClientEvent :=
  match input with
  | .ok data =>
    let currentRecordings := data.recordings.getD []
    let s0 := { s with error := none }
    let step :=
      if data.status = "joining" then
        ({ s0 with status := "Bot is joining the meeting... This may take a few moments." },
         sys, ([] : List ClientEvent))
      else if data.status = "joined" then
        ({ s0 with status := "Bot has joined the meeting and is recording" }, sys, [])
      else if data.status = "left" ∨ data.status = "ended" then
        ({ s0 with status := "Meeting ended. Processing recordings...",
                   pollingInterval := none },
         clearIntervalSys sys h,
         [ClientEvent.clearedTimer h, ClientEvent.scheduledRecordingsFetch 10000])
      else
        ({ s0 with status := "Bot status: " ++ data.status }, sys, [])
    let s1 := step.1
    let s2 :=
      if currentRecordings.length > 0 then { s1 with recordings := currentRecordings } else s1
    ({ s2 with retryCount := 0 }, step.2.1, step.2.2)
  | .err _ =>
    let newCount := s.retryCount + 1
    if newCount > 5 then
      ({ s with retryCount := newCount, pollingInterval := none,
                error := some "Too many errors occurred. Please try again." },
       clearIntervalSys sys h,
       [ClientEvent.clearedTimer h])
    else
      ({ s with retryCount := newCount,
                status := "Checking status (attempt " ++ toString newCount ++ "/5)..." },
       sys, [])

/-- Run the polling session with interval handle `h` over a trace of tick
inputs: a tick fires only while the session still owns the active handle
(`pollingInterval = some h`); once the timer is cleared no further tick
runs.  Returns the final state, timer system, and emitted events. -/
def runSession (h : Nat) (inputs : List TickInput) (s : ClientState) (sys : TimerSys) :
    ClientState × TimerSys × List ClientEvent :=
  match inputs with
  | [] => (s, sys, [])
  | i :: rest =>
    if s.pollingInterval = some h then
      let t := pollTick h i s sys
      let r := runSession h rest t.1 t.2.1
      (r.1, r.2.1, t.2.2 ++ r.2.2)
    else (s, sys, [])

/-- One backend response observed by the delayed recordings fetch: the
`recordings` list of `GET /api/bot/:id/recordings`, or a caught error. -/
inductive FetchInput where
  | ok (recordings : List Recording)
  | err (message : String)
deriving DecidableEq, Repr

/-- `getRecordings` from `src/unnamed/part_004` (lines 111-135): a
non-empty list is adopted and clears the error; an empty list re-schedules
itself after 30000 ms while `retryCount < 5`, else surfaces a persistent
error; a failed request surfaces its message. -/
def getRecordings (input : FetchInput) (s : ClientState) :
    ClientState × List ClientEvent :=
  let s0 := { s with status := "Checking for recordings..." }
  match input with
  | .ok newRecordings =>
    if newRecordings.length > 0 then
      ({ s0 with recordings := newRecordings, status := "Recordings are ready!",
                 error := none }, [])
    else
      let s1 := { s0 with status := "No recordings found yet. Checking again in 30 seconds..." }
      if s.retryCount < 5 then
        ({ s1 with retryCount := s.retryCount + 1 },
         [ClientEvent.scheduledRecordingsFetch 30000])
      else
        ({ s1 with error := some "No recordings found after multiple attempts. Please check the Recall dashboard." },
         [])
  | .err message =>
    ({ s0 with error := some message, status := "Failed to fetch recordings" }, [])

/-- Run the chain of delayed recordings fetches: each fetch that
re-schedules itself (empty list with budget left) consumes the next input;
otherwise the chain stops.  Returns the final state and the number of
fetches performed. -/
def runRecordingsLoop (inputs : List FetchInput) (s : ClientState) :
    ClientState × Nat :=
  match inputs with
  | [] => (s, 0)
  | i :: rest =>
    let f := getRecordings i s
    if ClientEvent.scheduledRecordingsFetch 30000 ∈ f.2 then
      let r := runRecordingsLoop rest f.1
      (r.1, r.2 + 1)
    else (f.1, 1)

end Client

namespace BasicClient

/-- `startPolling` from `src/src/App.tsx` (lines 33-51): arms a fresh
interval and stores its handle only in the callback closure — no
component state tracks it and no prior timer is cleared. -/
def startPolling (sys : TimerSys) : Nat × TimerSys :=
  setIntervalSys sys

end BasicClient

/-! ### Concrete fixtures used by counterexamples and witnesses -/

/-- A provider payload whose bot is still joining. -/
def joiningData : BotData := { status := "joining" }

/-- A provider payload whose bot has joined. -/
def joinedData : BotData := { status := "joined" }

/-- A provider payload whose bot has ended the meeting. -/
def endedData : BotData := { status := "ended" }

/-- A transient provider failure: HTTP 502 with a body. -/
def err502 : ApiError :=
  { response := some { status := 502, data_ := some { message := some "Bad Gateway" } },
    message := "Request failed with status code 502" }

/-- A timeout-style failure with no HTTP response at all. -/
def errTimeout : ApiError :=
  { response := none, message := "timeout of 60000ms exceeded" }

/-- A provider 404 whose response carries no body. -/
def err404NoBody : ApiError :=
  { response := some { status := 404 }, message := "Request failed with status code 404" }

/-- A provider 404 whose response carries a `detail` body. -/
def err404Body : ApiError :=
  { response := some { status := 404, data_ := some { detail := some "Not found." } },
    message := "Request failed with status code 404" }

/-- A provider payload with an empty recordings list. -/
def emptyRecBot : BotData := { status := "ended", recordings := some [] }

/-- The one recording of the specification's example sequence. -/
def rec1 : Recording := { id := "r1", status := "done" }

/-- A provider payload carrying exactly the recording `rec1`. -/
def oneRecBot : BotData := { status := "ended", recordings := some [rec1] }

/-! ### Single-step facts about the server retry loops -/

lemma getBotStatus_err_404 (M c : Nat) (e : ApiError) (rest : List ApiResult)
    (h : is404 e = true) :
    Server.getBotStatus M c (.err e :: rest) = some ⟨Except.error e, 1, 0⟩ := by
  simp [Server.getBotStatus, h]

lemma getBotStatus_err_retry (M c : Nat) (e : ApiError) (rest : List ApiResult)
    (h404 : is404 e = false) (hlt : c + 1 < M) :
    Server.getBotStatus M c (.err e :: rest) =
      (Server.getBotStatus M (c + 1) rest).map bumpRun := by
  simp [Server.getBotStatus, h404, hlt]

lemma getBotStatus_err_exhaust (M c : Nat) (e : ApiError) (rest : List ApiResult)
    (h404 : is404 e = false) (hge : M ≤ c + 1) :
    Server.getBotStatus M c (.err e :: rest) = some ⟨Except.error e, 1, 0⟩ := by
  have hnot : ¬ (c + 1 < M) := by omega
  simp [Server.getBotStatus, h404, hnot]

lemma getBotStatus_ok_joining (M c : Nat) (d : BotData) (rest : List ApiResult)
    (hs : d.status = "joining") (hlt : c < M) :
    Server.getBotStatus M c (.ok d :: rest) =
      (Server.getBotStatus M (c + 1) rest).map bumpRun := by
  simp [Server.getBotStatus, hs, hlt]

lemma getBotStatus_ok_return (M c : Nat) (d : BotData) (rest : List ApiResult)
    (h : ¬ (d.status = "joining" ∧ c < M)) :
    Server.getBotStatus M c (.ok d :: rest) = some ⟨Except.ok d, 1, 0⟩ := by
  simp only [Server.getBotStatus]
  rw [if_neg h]

lemma getRecordings_ok_retry (M c : Nat) (d : BotData) (rest : List ApiResult)
    (he : (d.recordings.getD []).isEmpty = true) (hlt : c < M) :
    Server.getRecordings M c (.ok d :: rest) =
      (Server.getRecordings M (c + 1) rest).map bumpRun := by
  simp [Server.getRecordings, he, hlt]

lemma getRecordings_ok_return (M c : Nat) (d : BotData) (rest : List ApiResult)
    (h : ¬ ((d.recordings.getD []).isEmpty = true ∧ c < M)) :
    Server.getRecordings M c (.ok d :: rest) =
      some ⟨Except.ok (d.recordings.getD []), 1, 0⟩ := by
  simp only [Server.getRecordings]
  rw [if_neg h]

lemma getRecordings_err_retry (M c : Nat) (e : ApiError) (rest : List ApiResult)
    (hlt : c + 1 < M) :
    Server.getRecordings M c (.err e :: rest) =
      (Server.getRecordings M (c + 1) rest).map bumpRun := by
  simp [Server.getRecordings, hlt]

lemma getRecordings_err_exhaust (M c : Nat) (e : ApiError) (rest : List ApiResult)
    (hge : M ≤ c + 1) :
    Server.getRecordings M c (.err e :: rest) = some ⟨Except.error e, 1, 0⟩ := by
  have hnot : ¬ (c + 1 < M) := by omega
  simp [Server.getRecordings, hnot]

/-! ### Whole-trace facts about the server retry loops -/

lemma getBotStatus_allFail (tl : List ApiError) :
    ∀ (elast : ApiError) (M c : Nat), c + tl.length + 1 = M →
      (∀ x ∈ tl, is404 x = false) → is404 elast = false →
      Server.getBotStatus M c ((tl ++ [elast]).map ApiResult.err) =
        some ⟨Except.error elast, tl.length + 1, tl.length⟩ := by
  induction tl with
  | nil =>
    intro elast M c hM _ h404
    simpa using getBotStatus_err_exhaust M c elast [] h404 (by simp at hM; omega)
  | cons x tl ih =>
    intro elast M c hM hall h404
    have hx : is404 x = false := hall x (by simp)
    have hlt : c + 1 < M := by simp at hM; omega
    rw [List.cons_append, List.map_cons,
      getBotStatus_err_retry M c x _ hx hlt,
      ih elast M (c + 1) (by simp at hM ⊢; omega)
        (fun y hy => hall y (by simp [hy])) h404]
    simp [bumpRun]

lemma getRecordings_allFail (tl : List ApiError) :
    ∀ (elast : ApiError) (M c : Nat), c + tl.length + 1 = M →
      Server.getRecordings M c ((tl ++ [elast]).map ApiResult.err) =
        some ⟨Except.error elast, tl.length + 1, tl.length⟩ := by
  induction tl with
  | nil =>
    intro elast M c hM
    simpa using getRecordings_err_exhaust M c elast [] (by simp at hM; omega)
  | cons x tl ih =>
    intro elast M c hM
    have hlt : c + 1 < M := by simp at hM; omega
    rw [List.cons_append, List.map_cons,
      getRecordings_err_retry M c x _ hlt,
      ih elast M (c + 1) (by simp at hM ⊢; omega)]
    simp [bumpRun]

lemma getBotStatus_allJoining (ds : List BotData) :
    ∀ (dlast : BotData) (M c : Nat), c + ds.length = M →
      (∀ x ∈ ds, x.status = "joining") →
      Server.getBotStatus M c ((ds ++ [dlast]).map ApiResult.ok) =
        some ⟨Except.ok dlast, ds.length + 1, ds.length⟩ := by
  induction ds with
  | nil =>
    intro dlast M c hM _
    simpa using getBotStatus_ok_return M c dlast []
      (fun hc => by have h2 := hc.2; simp at hM; omega)
  | cons d ds ih =>
    intro dlast M c hM hall
    have hd : d.status = "joining" := hall d (by simp)
    have hlt : c < M := by simp at hM; omega
    rw [List.cons_append, List.map_cons,
      getBotStatus_ok_joining M c d _ hd hlt,
      ih dlast M (c + 1) (by simp at hM ⊢; omega)
        (fun y hy => hall y (by simp [hy]))]
    simp [bumpRun]

lemma getBotStatus_joinThenDone (ds : List BotData) :
    ∀ (dlast : BotData) (M c : Nat), c + ds.length ≤ M →
      (∀ x ∈ ds, x.status = "joining") → dlast.status ≠ "joining" →
      Server.getBotStatus M c ((ds ++ [dlast]).map ApiResult.ok) =
        some ⟨Except.ok dlast, ds.length + 1, ds.length⟩ := by
  induction ds with
  | nil =>
    intro dlast M c _ _ hne
    simpa using getBotStatus_ok_return M c dlast [] (fun hc => hne hc.1)
  | cons d ds ih =>
    intro dlast M c hM hall hne
    have hd : d.status = "joining" := hall d (by simp)
    have hlt : c < M := by simp at hM; omega
    rw [List.cons_append, List.map_cons,
      getBotStatus_ok_joining M c d _ hd hlt,
      ih dlast M (c + 1) (by simp at hM ⊢; omega)
        (fun y hy => hall y (by simp [hy])) hne]
    simp [bumpRun]

lemma getRecordings_emptyThenFull (ds : List BotData) :
    ∀ (dlast : BotData) (M c : Nat), c + ds.length ≤ M →
      (∀ x ∈ ds, (x.recordings.getD []).isEmpty = true) →
      (dlast.recordings.getD []).isEmpty = false →
      Server.getRecordings M c ((ds ++ [dlast]).map ApiResult.ok) =
        some ⟨Except.ok (dlast.recordings.getD []), ds.length + 1, ds.length⟩ := by
  induction ds with
  | nil =>
    intro dlast M c _ _ hne
    simpa using getRecordings_ok_return M c dlast [] (fun hc => by simp [hc.1] at hne)
  | cons d ds ih =>
    intro dlast M c hM hall hne
    have hd : (d.recordings.getD []).isEmpty = true := hall d (by simp)
    have hlt : c < M := by simp at hM; omega
    rw [List.cons_append, List.map_cons,
      getRecordings_ok_retry M c d _ hd hlt,
      ih dlast M (c + 1) (by simp at hM ⊢; omega)
        (fun y hy => hall y (by simp [hy])) hne]
    simp [bumpRun]

lemma botStatusEndpoint_err (M : Nat) (trace : List ApiResult)
    (o : RunOutcome BotData) (e : ApiError)
    (hrun : Server.getBotStatus M 0 trace = some o) (hres : o.result = .error e) :
    Server.botStatusEndpoint M trace =
      some ⟨(handleApiError e).status, .errorBody (handleApiError e).error⟩ := by
  simp [Server.botStatusEndpoint, hrun, hres]

lemma botStatusEndpoint_ok (M : Nat) (trace : List ApiResult)
    (o : RunOutcome BotData) (d : BotData)
    (hrun : Server.getBotStatus M 0 trace = some o) (hres : o.result = .ok d) :
    Server.botStatusEndpoint M trace = some ⟨200, .payload d⟩ := by
  simp [Server.botStatusEndpoint, hrun, hres]

lemma recordingsEndpoint_ok (M : Nat) (trace : List ApiResult)
    (o : RunOutcome (List Recording)) (recs : List Recording)
    (hrun : Server.getRecordings M 0 trace = some o) (hres : o.result = .ok recs) :
    Server.recordingsEndpoint M trace = some ⟨200, .recordingsList recs⟩ := by
  simp [Server.recordingsEndpoint, hrun, hres]

/-! ### Claims about the server retry loops and error mapping -/

/-- C1 counterexample: a 404 is NOT terminal for the recordings fetch.
On the trace [404, 404] with MAX_RETRIES = 2, `getRecordings` performs 2
attempts with a delay and re-raises the SECOND 404, not the first after
exactly 1 attempt as the claim requires. -/
theorem recordings_fetch_retries_404_counterexample :
    Server.getRecordings 2 0 [.err err404Body, .err err404NoBody] =
      some ⟨Except.error err404NoBody, 2, 1⟩ ∧
    Server.getRecordings 2 0 [.err err404Body, .err err404NoBody] ≠
      some ⟨Except.error err404Body, 1, 0⟩ := by
  constructor <;> decide

/-- C1 (amended): HTTP 404 is terminal only for the bot-status fetch,
where it is re-raised immediately after exactly 1 attempt with no delay,
for every remaining retry budget; the recordings fetch has no 404 special
case and retries a 404 like any transient failure until the budget is
exhausted, then re-raises the last 404. -/
theorem retry_404_terminal_for_status_not_recordings :
    (∀ (M c : Nat) (e : ApiError) (rest : List ApiResult), is404 e = true →
      Server.getBotStatus M c (.err e :: rest) = some ⟨Except.error e, 1, 0⟩) ∧
    (∀ (M : Nat) (tl : List ApiError) (elast : ApiError),
      tl.length + 1 = M → (∀ x ∈ tl, is404 x = true) → is404 elast = true →
      Server.getRecordings M 0 ((tl ++ [elast]).map ApiResult.err) =
        some ⟨Except.error elast, M, M - 1⟩) := by
  constructor
  · exact getBotStatus_err_404
  · intro M tl elast hlen _ _
    subst hlen
    rw [getRecordings_allFail tl elast _ 0 (by omega)]
    simp

/-- C1 witness. -/
theorem retry_404_terminal_for_status_not_recordings_witness :
    Server.getBotStatus 7 3 [.err err404Body] = some ⟨Except.error err404Body, 1, 0⟩ ∧
    Server.getRecordings 2 0 (([err404Body] ++ [err404NoBody]).map ApiResult.err) =
      some ⟨Except.error err404NoBody, 2, 2 - 1⟩ :=
  ⟨retry_404_terminal_for_status_not_recordings.1 7 3 err404Body [] (by decide),
   retry_404_terminal_for_status_not_recordings.2 2 [err404Body] err404NoBody
     (by decide) (by decide) (by decide)⟩

/-- C2 counterexample: the tracker has one shared counter, not two.  With
MAX_RETRIES = 2 and the trace [joining, 502, joined], the code raises the
502 after 2 attempts - the single failed request found the budget already
consumed by the joining poll - whereas a tracker with the separate
counters the claim describes would have retried and returned the joined
payload after 3 attempts. -/
theorem shared_counter_counterexample :
    Server.getBotStatus 2 0 [.ok joiningData, .err err502, .ok joinedData] =
      some ⟨Except.error err502, 2, 1⟩ ∧
    Server.specTwoCounterTracker 2 0 0 [.ok joiningData, .err err502, .ok joinedData] =
      some ⟨Except.ok joinedData, 3, 2⟩ := by
  constructor <;> decide

/-- C2 (amended): the Bot Lifecycle Tracker keeps a single shared counter
`currentTry`: a poll returning status "joining" and a failed non-404
request each increment the same counter by one and re-poll after a delay
while it is below the budget, so both kinds of event consume the same
budget. -/
theorem tracker_single_shared_counter :
    (∀ (M c : Nat) (d : BotData) (rest : List ApiResult),
      d.status = "joining" → c < M →
      Server.getBotStatus M c (.ok d :: rest) =
        (Server.getBotStatus M (c + 1) rest).map bumpRun) ∧
    (∀ (M c : Nat) (e : ApiError) (rest : List ApiResult),
      is404 e = false → c + 1 < M →
      Server.getBotStatus M c (.err e :: rest) =
        (Server.getBotStatus M (c + 1) rest).map bumpRun) :=
  ⟨getBotStatus_ok_joining, getBotStatus_err_retry⟩

/-- C2 witness. -/
theorem tracker_single_shared_counter_witness :
    Server.getBotStatus 3 0 [.ok joiningData, .ok joinedData] =
      (Server.getBotStatus 3 1 [.ok joinedData]).map bumpRun ∧
    Server.getBotStatus 3 0 [.err err502, .ok joinedData] =
      (Server.getBotStatus 3 1 [.ok joinedData]).map bumpRun :=
  ⟨tracker_single_shared_counter.1 3 0 joiningData [.ok joinedData] (by decide) (by decide),
   tracker_single_shared_counter.2 3 0 err502 [.ok joinedData] (by decide) (by decide)⟩

/-- C3: for every MAX_RETRIES = N ≥ 1 and a remote operation failing with
a non-404 cause on every invocation, both server retry loops perform
exactly N attempts with N - 1 delays between consecutive attempts and
raise the last underlying error. -/
theorem retry_exhaustion_exact_attempts :
    ∀ (N : Nat) (tl : List ApiError) (elast : ApiError),
      1 ≤ N → tl.length + 1 = N →
      (∀ x ∈ tl, is404 x = false) → is404 elast = false →
      Server.getBotStatus N 0 ((tl ++ [elast]).map ApiResult.err) =
        some ⟨Except.error elast, N, N - 1⟩ ∧
      Server.getRecordings N 0 ((tl ++ [elast]).map ApiResult.err) =
        some ⟨Except.error elast, N, N - 1⟩ := by
  intro N tl elast h1 hlen hall hlast
  subst hlen
  constructor
  · rw [getBotStatus_allFail tl elast _ 0 (by omega) hall hlast]
    simp
  · rw [getRecordings_allFail tl elast _ 0 (by omega)]
    simp

/-- C3 witness. -/
theorem retry_exhaustion_exact_attempts_witness :
    Server.getBotStatus 2 0 (([errTimeout] ++ [err502]).map ApiResult.err) =
      some ⟨Except.error err502, 2, 2 - 1⟩ ∧
    Server.getRecordings 2 0 (([errTimeout] ++ [err502]).map ApiResult.err) =
      some ⟨Except.error err502, 2, 2 - 1⟩ :=
  retry_exhaustion_exact_attempts 2 [errTimeout] err502
    (by decide) (by decide) (by decide) (by decide)

/-- C4: a poll sequence that stays "joining" until the joining budget M is
exhausted makes the tracker return the last-seen payload as a success (the
endpoint answers 200 with the payload, not an error); and for the sequence
[joining, joining, joined] with budget at least 2 it performs exactly two
delayed re-polls and returns the joined payload without raising. -/
theorem joining_budget_exhaustion_returns_payload :
    (∀ (M : Nat) (ds : List BotData) (dlast : BotData),
      ds.length = M → (∀ x ∈ ds, x.status = "joining") → dlast.status = "joining" →
      Server.getBotStatus M 0 ((ds ++ [dlast]).map ApiResult.ok) =
        some ⟨Except.ok dlast, M + 1, M⟩ ∧
      Server.botStatusEndpoint M ((ds ++ [dlast]).map ApiResult.ok) =
        some ⟨200, Server.ResponseBody.payload dlast⟩) ∧
    (∀ (M : Nat), 2 ≤ M →
      Server.getBotStatus M 0 [.ok joiningData, .ok joiningData, .ok joinedData] =
        some ⟨Except.ok joinedData, 3, 2⟩) := by
  constructor
  · intro M ds dlast hlen hall _
    subst hlen
    have hrun := getBotStatus_allJoining ds dlast ds.length 0 (by omega) hall
    refine ⟨hrun, ?_⟩
    exact botStatusEndpoint_ok _ _ _ _ hrun rfl
  · intro M hM
    have hrun := getBotStatus_joinThenDone [joiningData, joiningData] joinedData M 0
      (by simp; omega)
      (by intro x hx; simp at hx; subst hx; rfl)
      (by decide)
    simpa using hrun

/-- C4 witness. -/
theorem joining_budget_exhaustion_returns_payload_witness :
    (Server.getBotStatus 1 0 (([joiningData] ++ [joiningData]).map ApiResult.ok) =
      some ⟨Except.ok joiningData, 1 + 1, 1⟩ ∧
     Server.botStatusEndpoint 1 (([joiningData] ++ [joiningData]).map ApiResult.ok) =
      some ⟨200, Server.ResponseBody.payload joiningData⟩) ∧
    Server.getBotStatus 2 0 [.ok joiningData, .ok joiningData, .ok joinedData] =
      some ⟨Except.ok joinedData, 3, 2⟩ :=
  ⟨joining_budget_exhaustion_returns_payload.1 1 [joiningData] joiningData
     (by decide) (by intro x hx; simp at hx; subst hx; rfl) (by decide),
   joining_budget_exhaustion_returns_payload.2 2 (by decide)⟩

/-- C5: the Recording Availability Poller retries with a delay while the
list is empty and budget remains, returns immediately once the list is
non-empty, returns the (possibly empty) list as a success once the budget
is exhausted, and on the sequence [[], [], [r1]] with budget at least 2
returns [r1] after exactly two delays, the endpoint answering 200. -/
theorem recordings_poller_contract :
    (∀ (M c : Nat) (d : BotData) (rest : List ApiResult),
      (d.recordings.getD []).isEmpty = true → c < M →
      Server.getRecordings M c (.ok d :: rest) =
        (Server.getRecordings M (c + 1) rest).map bumpRun) ∧
    (∀ (M c : Nat) (d : BotData) (rest : List ApiResult),
      (d.recordings.getD []).isEmpty = false →
      Server.getRecordings M c (.ok d :: rest) =
        some ⟨Except.ok (d.recordings.getD []), 1, 0⟩) ∧
    (∀ (M c : Nat) (d : BotData) (rest : List ApiResult), M ≤ c →
      Server.getRecordings M c (.ok d :: rest) =
        some ⟨Except.ok (d.recordings.getD []), 1, 0⟩) ∧
    (∀ (M : Nat), 2 ≤ M →
      Server.getRecordings M 0 [.ok emptyRecBot, .ok emptyRecBot, .ok oneRecBot] =
        some ⟨Except.ok [rec1], 3, 2⟩ ∧
      Server.recordingsEndpoint M [.ok emptyRecBot, .ok emptyRecBot, .ok oneRecBot] =
        some ⟨200, Server.ResponseBody.recordingsList [rec1]⟩) := by
  refine ⟨getRecordings_ok_retry, ?_, ?_, ?_⟩
  · intro M c d rest hne
    exact getRecordings_ok_return M c d rest
      (fun hc => by rw [hc.1] at hne; exact Bool.noConfusion hne)
  · intro M c d rest hge
    exact getRecordings_ok_return M c d rest (fun hc => absurd hc.2 (by omega))
  · intro M hM
    have hrun := getRecordings_emptyThenFull [emptyRecBot, emptyRecBot] oneRecBot M 0
      (by simp; omega)
      (by intro x hx; simp at hx; subst hx; rfl)
      (by decide)
    have hrun' : Server.getRecordings M 0 [.ok emptyRecBot, .ok emptyRecBot, .ok oneRecBot] =
        some ⟨Except.ok [rec1], 3, 2⟩ := by simpa using hrun
    exact ⟨hrun', recordingsEndpoint_ok M _ _ _ hrun' rfl⟩

/-- C5 witness. -/
theorem recordings_poller_contract_witness :
    Server.getRecordings 3 1 (.ok emptyRecBot :: [.ok oneRecBot]) =
      (Server.getRecordings 3 2 [.ok oneRecBot]).map bumpRun ∧
    Server.getRecordings 3 1 (.ok oneRecBot :: []) =
      some ⟨Except.ok (oneRecBot.recordings.getD []), 1, 0⟩ ∧
    Server.getRecordings 3 3 (.ok emptyRecBot :: []) =
      some ⟨Except.ok (emptyRecBot.recordings.getD []), 1, 0⟩ ∧
    Server.getRecordings 2 0 [.ok emptyRecBot, .ok emptyRecBot, .ok oneRecBot] =
      some ⟨Except.ok [rec1], 3, 2⟩ :=
  ⟨recordings_poller_contract.1 3 1 emptyRecBot [.ok oneRecBot] (by decide) (by decide),
   recordings_poller_contract.2.1 3 1 oneRecBot [] (by decide),
   recordings_poller_contract.2.2.1 3 3 emptyRecBot [] (by decide),
   (recordings_poller_contract.2.2.2 2 (by decide)).1⟩

/-- C6 counterexample: a provider 404 IS masked when its response carries
no body.  For the terminal 404 `err404NoBody` (response status 404, falsy
`data`), the relay endpoint answers 500 with the raw axios message, not
404. -/
theorem error_mapper_masks_404_counterexample :
    Server.botStatusEndpoint 10 [.err err404NoBody] =
      some ⟨500, Server.ResponseBody.errorBody "Request failed with status code 404"⟩ ∧
    (Server.botStatusEndpoint 10 [.err err404NoBody]).map Server.HttpResponse.status ≠
      some 404 := by
  constructor <;> decide

/-- C6 (amended): the boundary status equals the provider-supplied HTTP
status code only when the provider's error response carries a truthy data
body, with a message from `detail` or `message` falling back to the
literal "API Error"; when the response is absent or its body is falsy, the
status is a generic 500 with the raw error text (so a bodyless provider
404 is masked); a terminal error always produces the `{ error: string }`
shape with the `handleApiError` status and message. -/
theorem error_mapper_status_amended :
    (∀ (e : ApiError) (r : ErrResponse) (d : ErrBody),
      e.response = some r → r.data_ = some d →
      handleApiError e = ⟨jsOrOpt d.detail (jsOrOpt d.message "API Error"), r.status⟩) ∧
    (∀ (e : ApiError) (r : ErrResponse),
      e.response = some r → r.data_ = none →
      handleApiError e = ⟨jsOrStr e.message "Unknown error occurred", 500⟩) ∧
    (∀ (e : ApiError), e.response = none →
      handleApiError e = ⟨jsOrStr e.message "Unknown error occurred", 500⟩) ∧
    (∀ (M : Nat) (trace : List ApiResult) (o : RunOutcome BotData) (e : ApiError),
      Server.getBotStatus M 0 trace = some o → o.result = .error e →
      Server.botStatusEndpoint M trace =
        some ⟨(handleApiError e).status,
              Server.ResponseBody.errorBody (handleApiError e).error⟩) := by
  refine ⟨?_, ?_, ?_, botStatusEndpoint_err⟩
  · intro e r d h1 h2
    simp [handleApiError, h1, h2]
  · intro e r h1 h2
    simp [handleApiError, h1, h2]
  · intro e h1
    simp [handleApiError, h1]

/-- C6 witness. -/
theorem error_mapper_status_amended_witness :
    handleApiError err404Body =
      ⟨jsOrOpt (some "Not found.") (jsOrOpt none "API Error"), 404⟩ ∧
    handleApiError err404NoBody =
      ⟨jsOrStr "Request failed with status code 404" "Unknown error occurred", 500⟩ ∧
    handleApiError errTimeout =
      ⟨jsOrStr "timeout of 60000ms exceeded" "Unknown error occurred", 500⟩ ∧
    Server.botStatusEndpoint 1 [.err errTimeout] =
      some ⟨(handleApiError errTimeout).status,
            Server.ResponseBody.errorBody (handleApiError errTimeout).error⟩ :=
  ⟨error_mapper_status_amended.1 err404Body { status := 404, data_ := some { detail := some "Not found." } }
     { detail := some "Not found." } (by decide) (by decide),
   error_mapper_status_amended.2.1 err404NoBody { status := 404 } (by decide) (by decide),
   error_mapper_status_amended.2.2.1 errTimeout (by decide),
   error_mapper_status_amended.2.2.2 1 [.err errTimeout] ⟨Except.error errTimeout, 1, 0⟩
     errTimeout (by decide) (by decide)⟩

/-- C10: the error mapper uses the provider's HTTP status only when the
error response carries a truthy data body; for every provider failure
whose response has no (or a falsy) body the boundary answers 500 with the
error's own message, even when the provider's actual HTTP status was
404. -/
theorem error_mapper_requires_truthy_body :
    (∀ (e : ApiError) (r : ErrResponse), e.response = some r → r.data_ = none →
      (handleApiError e).status = 500 ∧
      (handleApiError e).error = jsOrStr e.message "Unknown error occurred") ∧
    (∀ (M : Nat) (trace : List ApiResult) (o : RunOutcome BotData)
       (e : ApiError) (r : ErrResponse),
      Server.getBotStatus M 0 trace = some o → o.result = .error e →
      e.response = some r → r.data_ = none →
      Server.botStatusEndpoint M trace =
        some ⟨500, Server.ResponseBody.errorBody (jsOrStr e.message "Unknown error occurred")⟩) := by
  constructor
  · intro e r h1 h2
    simp [handleApiError, h1, h2]
  · intro M trace o e r h1 h2 h3 h4
    rw [botStatusEndpoint_err M trace o e h1 h2]
    simp [handleApiError, h3, h4]

/-- C10 witness: a bodyless 404 is relayed as 500 with the raw message. -/
theorem error_mapper_requires_truthy_body_witness :
    ((handleApiError err404NoBody).status = 500 ∧
     (handleApiError err404NoBody).error =
       jsOrStr "Request failed with status code 404" "Unknown error occurred") ∧
    Server.botStatusEndpoint 3 [.err err404NoBody] =
      some ⟨500, Server.ResponseBody.errorBody
        (jsOrStr "Request failed with status code 404" "Unknown error occurred")⟩ :=
  ⟨error_mapper_requires_truthy_body.1 err404NoBody { status := 404 } (by decide) (by decide),
   error_mapper_requires_truthy_body.2 3 [.err err404NoBody]
     ⟨Except.error err404NoBody, 1, 0⟩ err404NoBody { status := 404 }
     (by decide) (by decide) (by decide) (by decide)⟩

/-! ### Facts about the client polling session -/

lemma runSession_dead (h : Nat) (inputs : List TickInput) (s : ClientState)
    (sys : TimerSys) (hne : s.pollingInterval ≠ some h) :
    Client.runSession h inputs s sys = (s, sys, []) := by
  cases inputs with
  | nil => rfl
  | cons i rest => simp [Client.runSession, hne]

lemma runSession_cons_alive (h : Nat) (i : TickInput) (rest : List TickInput)
    (s : ClientState) (sys : TimerSys) (hown : s.pollingInterval = some h) :
    Client.runSession h (i :: rest) s sys =
      ((Client.runSession h rest (Client.pollTick h i s sys).1
          (Client.pollTick h i s sys).2.1).1,
       (Client.runSession h rest (Client.pollTick h i s sys).1
          (Client.pollTick h i s sys).2.1).2.1,
       (Client.pollTick h i s sys).2.2 ++
         (Client.runSession h rest (Client.pollTick h i s sys).1
            (Client.pollTick h i s sys).2.1).2.2) := by
  simp [Client.runSession, hown]

lemma pollTick_err_small (h : Nat) (m : String) (s : ClientState) (sys : TimerSys)
    (hlt : s.retryCount < 5) :
    Client.pollTick h (.err m) s sys =
      ({ s with retryCount := s.retryCount + 1,
                status := "Checking status (attempt " ++ toString (s.retryCount + 1) ++ "/5)..." },
       sys, []) := by
  have hnot : ¬ (s.retryCount + 1 > 5) := by omega
  simp [Client.pollTick, hnot]

lemma pollTick_err_exhausted (h : Nat) (m : String) (s : ClientState) (sys : TimerSys)
    (hge : 5 ≤ s.retryCount) :
    Client.pollTick h (.err m) s sys =
      ({ s with retryCount := s.retryCount + 1, pollingInterval := none,
                error := some "Too many errors occurred. Please try again." },
       clearIntervalSys sys h, [ClientEvent.clearedTimer h]) := by
  have hgt : s.retryCount + 1 > 5 := by omega
  simp [Client.pollTick, hgt]

lemma pollTick_alive_or_stopped (h : Nat) (i : TickInput) (s : ClientState)
    (sys : TimerSys) (hown : s.pollingInterval = some h) :
    ((Client.pollTick h i s sys).1.pollingInterval = some h ∧
     (Client.pollTick h i s sys).2.2 = []) ∨
    (Client.pollTick h i s sys).1.pollingInterval = none := by
  cases i with
  | ok data =>
    simp only [Client.pollTick]
    split_ifs <;> simp [hown]
  | err m =>
    simp only [Client.pollTick]
    split_ifs <;> simp [hown]

lemma pollTick_terminal (h : Nat) (d : BotData) (s : ClientState) (sys : TimerSys)
    (hs : d.status = "left" ∨ d.status = "ended") :
    (Client.pollTick h (.ok d) s sys).2.2 =
      [ClientEvent.clearedTimer h, ClientEvent.scheduledRecordingsFetch 10000] ∧
    (Client.pollTick h (.ok d) s sys).1.pollingInterval = none := by
  have h1 : ¬ d.status = "joining" := by
    rcases hs with h' | h' <;> rw [h'] <;> decide
  have h2 : ¬ d.status = "joined" := by
    rcases hs with h' | h' <;> rw [h'] <;> decide
  simp only [Client.pollTick]
  rw [if_neg h1, if_neg h2, if_pos hs]
  split_ifs <;> simp

lemma runSession_alive_events_nil (h : Nat) (inputs : List TickInput) :
    ∀ (s : ClientState) (sys : TimerSys), s.pollingInterval = some h →
      (Client.runSession h inputs s sys).1.pollingInterval = some h →
      (Client.runSession h inputs s sys).2.2 = [] := by
  induction inputs with
  | nil => intro s sys _ _; rfl
  | cons i rest ih =>
    intro s sys hown halive
    rw [runSession_cons_alive h i rest s sys hown] at halive ⊢
    rcases pollTick_alive_or_stopped h i s sys hown with ⟨ha, he⟩ | hstop
    · simp only [he, List.nil_append]
      exact ih _ _ ha halive
    · rw [runSession_dead h rest _ _ (by rw [hstop]; simp)] at halive
      rw [hstop] at halive
      exact absurd halive (by simp)

lemma runSession_append (h : Nat) (pre post : List TickInput) :
    ∀ (s : ClientState) (sys : TimerSys),
      Client.runSession h (pre ++ post) s sys =
        ((Client.runSession h post (Client.runSession h pre s sys).1
            (Client.runSession h pre s sys).2.1).1,
         (Client.runSession h post (Client.runSession h pre s sys).1
            (Client.runSession h pre s sys).2.1).2.1,
         (Client.runSession h pre s sys).2.2 ++
           (Client.runSession h post (Client.runSession h pre s sys).1
              (Client.runSession h pre s sys).2.1).2.2) := by
  induction pre with
  | nil =>
    intro s sys
    simp [Client.runSession]
  | cons i pre ih =>
    intro s sys
    by_cases hown : s.pollingInterval = some h
    · rw [List.cons_append, runSession_cons_alive h i (pre ++ post) s sys hown,
        runSession_cons_alive h i pre s sys hown, ih]
      simp
    · rw [runSession_dead h (i :: pre ++ post) s sys hown,
        runSession_dead h (i :: pre) s sys hown,
        runSession_dead h post s sys hown]
      simp

lemma getRecordings_resched (i : Client.FetchInput) (s : ClientState)
    (hmem : ClientEvent.scheduledRecordingsFetch 30000 ∈ (Client.getRecordings i s).2) :
    s.retryCount < 5 ∧
    (Client.getRecordings i s).1.retryCount = s.retryCount + 1 := by
  cases i with
  | ok recs =>
    simp only [Client.getRecordings] at hmem ⊢
    split_ifs at hmem ⊢ with h1 h2
    · simp at hmem
    · exact ⟨h2, by simp⟩
    · simp at hmem
  | err m =>
    simp [Client.getRecordings] at hmem

lemma getRecordings_events_shape (i : Client.FetchInput) (s : ClientState) :
    (Client.getRecordings i s).2 = [] ∨
    (Client.getRecordings i s).2 = [ClientEvent.scheduledRecordingsFetch 30000] := by
  cases i with
  | ok recs =>
    simp only [Client.getRecordings]
    split_ifs <;> simp
  | err m =>
    simp [Client.getRecordings]

lemma runRecordingsLoop_bound (inputs : List Client.FetchInput) :
    ∀ (s : ClientState), s.retryCount ≤ 5 →
      (Client.runRecordingsLoop inputs s).2 + s.retryCount ≤ 6 := by
  induction inputs with
  | nil => intro s hs; simp [Client.runRecordingsLoop]; omega
  | cons i rest ih =>
    intro s hs
    simp only [Client.runRecordingsLoop]
    by_cases hmem : ClientEvent.scheduledRecordingsFetch 30000 ∈ (Client.getRecordings i s).2
    · rw [if_pos hmem]
      rcases getRecordings_resched i s hmem with ⟨hlt, hrc⟩
      have := ih (Client.getRecordings i s).1 (by omega)
      rw [hrc] at this
      simp only []
      omega
    · rw [if_neg hmem]
      omega

lemma runSession_errors_below (h : Nat) (m : String) (k : Nat) :
    ∀ (s : ClientState) (sys : TimerSys),
      s.pollingInterval = some h → s.retryCount + k ≤ 5 →
      (Client.runSession h (List.replicate k (TickInput.err m)) s sys).1.pollingInterval =
        some h ∧
      (Client.runSession h (List.replicate k (TickInput.err m)) s sys).1.error = s.error ∧
      (Client.runSession h (List.replicate k (TickInput.err m)) s sys).1.retryCount =
        s.retryCount + k ∧
      (Client.runSession h (List.replicate k (TickInput.err m)) s sys).2.2 = [] := by
  induction k with
  | zero =>
    intro s sys hown _
    simp [Client.runSession, hown]
  | succ k ih =>
    intro s sys hown hle
    rw [List.replicate_succ, runSession_cons_alive h _ _ s sys hown,
      pollTick_err_small h m s sys (by omega)]
    have := ih { s with retryCount := s.retryCount + 1,
                        status := "Checking status (attempt " ++ toString (s.retryCount + 1) ++ "/5)..." }
      sys (by simpa using hown) (by simp; omega)
    refine ⟨this.1, ?_, ?_, ?_⟩
    · rw [this.2.1]
    · rw [this.2.2.1]; simp; omega
    · simp [this.2.2.2]

/-! ### Claims about the client polling session -/

/-- C7 counterexample: in the `src/src/App.tsx` client, `startPolling`
never cancels a prior timer, so calling start twice in succession from a
fresh client leaves two active repeating timers, not one. -/
theorem double_start_two_timers_counterexample :
    ((BasicClient.startPolling (BasicClient.startPolling ⟨0, []⟩).2).2).active = [0, 1] ∧
    ((BasicClient.startPolling (BasicClient.startPolling ⟨0, []⟩).2).2).active.length ≠ 1 := by
  constructor <;> decide

/-- C7 (amended): in the `part_004` client, whose session state owns
exactly the timer it tracks, calling start twice in succession leaves
exactly one active repeating timer (the second start cancels the first's
before arming its own); the `src/src/App.tsx` client's start cancels
nothing, so two successive starts leave two active timers. -/
theorem start_polling_idempotency_amended :
    (∀ (s : ClientState) (sys : TimerSys),
      sys.active = s.pollingInterval.toList →
      ((Client.startPolling (Client.startPolling s sys).1 (Client.startPolling s sys).2).2).active =
        [sys.nextHandle + 1] ∧
      ((Client.startPolling (Client.startPolling s sys).1 (Client.startPolling s sys).2).1).pollingInterval =
        some (sys.nextHandle + 1)) ∧
    (∀ (n : Nat),
      ((BasicClient.startPolling (BasicClient.startPolling ⟨n, []⟩).2).2).active =
        [n, n + 1]) := by
  constructor
  · intro s sys hwf
    cases hpi : s.pollingInterval with
    | none =>
      rw [hpi] at hwf
      simp [Client.startPolling, setIntervalSys, clearIntervalSys, hpi, hwf]
    | some h0 =>
      rw [hpi] at hwf
      simp [Client.startPolling, setIntervalSys, clearIntervalSys, hpi, hwf]
  · intro n
    simp [BasicClient.startPolling, setIntervalSys]

/-- C7 witness. -/
theorem start_polling_idempotency_amended_witness :
    (((Client.startPolling (Client.startPolling { pollingInterval := some 0 }
          ⟨1, [0]⟩).1 (Client.startPolling { pollingInterval := some 0 } ⟨1, [0]⟩).2).2).active =
      [1 + 1] ∧
     ((Client.startPolling (Client.startPolling { pollingInterval := some 0 }
          ⟨1, [0]⟩).1 (Client.startPolling { pollingInterval := some 0 } ⟨1, [0]⟩).2).1).pollingInterval =
      some (1 + 1)) ∧
    ((BasicClient.startPolling (BasicClient.startPolling ⟨5, []⟩).2).2).active = [5, 5 + 1] :=
  ⟨start_polling_idempotency_amended.1 { pollingInterval := some 0 } ⟨1, [0]⟩ (by decide),
   start_polling_idempotency_amended.2 5⟩

/-- C8: a `part_004` polling session that observes phase "ended" or
"left" while alive cancels its recurring timer exactly once and schedules
exactly one recordings fetch delayed by 10000 ms (its whole event log is
exactly those two events); the delayed fetch retries on an empty
recordings list only boundedly often (at most 6 fetches from a fresh
counter), and every re-poll it schedules uses the longer 30000 ms
spacing. -/
theorem ended_phase_single_stop_and_bounded_recordings_retry :
    (∀ (h : Nat) (s : ClientState) (sys : TimerSys) (pre post : List TickInput)
       (d : BotData),
      s.pollingInterval = some h →
      (Client.runSession h pre s sys).1.pollingInterval = some h →
      (d.status = "ended" ∨ d.status = "left") →
      (Client.runSession h (pre ++ TickInput.ok d :: post) s sys).2.2 =
        [ClientEvent.clearedTimer h, ClientEvent.scheduledRecordingsFetch 10000]) ∧
    (∀ (inputs : List Client.FetchInput) (s : ClientState), s.retryCount = 0 →
      (Client.runRecordingsLoop inputs s).2 ≤ 6) ∧
    (∀ (i : Client.FetchInput) (s : ClientState) (ev : ClientEvent),
      ev ∈ (Client.getRecordings i s).2 →
      ev = ClientEvent.scheduledRecordingsFetch 30000) := by
  refine ⟨?_, ?_, ?_⟩
  · intro h s sys pre post d hown halive hs
    have hpre := runSession_alive_events_nil h pre s sys hown halive
    rw [runSession_append h pre (TickInput.ok d :: post) s sys]
    rw [runSession_cons_alive h (TickInput.ok d) post _ _ halive]
    have hterm := pollTick_terminal h d (Client.runSession h pre s sys).1
      (Client.runSession h pre s sys).2.1 hs.symm
    have hdead := runSession_dead h post _
      (Client.pollTick h (TickInput.ok d) (Client.runSession h pre s sys).1
        (Client.runSession h pre s sys).2.1).2.1
      (by rw [hterm.2]; simp)
    rw [hpre, hdead, hterm.1]
    simp
  · intro inputs s hrc
    have := runRecordingsLoop_bound inputs s (by omega)
    omega
  · intro i s ev hmem
    rcases getRecordings_events_shape i s with hsh | hsh <;> rw [hsh] at hmem
    · simp at hmem
    · simpa using hmem

/-- C8 witness. -/
theorem ended_phase_single_stop_witness :
    (Client.runSession 0 ([TickInput.ok joiningData] ++ TickInput.ok endedData ::
        [TickInput.ok joinedData]) { pollingInterval := some 0 } ⟨1, [0]⟩).2.2 =
      [ClientEvent.clearedTimer 0, ClientEvent.scheduledRecordingsFetch 10000] ∧
    (Client.runRecordingsLoop [Client.FetchInput.ok [], Client.FetchInput.ok [rec1]]
        { retryCount := 0 }).2 ≤ 6 ∧
    ClientEvent.scheduledRecordingsFetch 30000 =
      ClientEvent.scheduledRecordingsFetch 30000 :=
  ⟨ended_phase_single_stop_and_bounded_recordings_retry.1 0 { pollingInterval := some 0 }
     ⟨1, [0]⟩ [TickInput.ok joiningData] [TickInput.ok joinedData] endedData
     (by decide) (by decide) (Or.inl (by decide)),
   ended_phase_single_stop_and_bounded_recordings_retry.2.1
     [Client.FetchInput.ok [], Client.FetchInput.ok [rec1]] { retryCount := 0 } (by decide),
   ended_phase_single_stop_and_bounded_recordings_retry.2.2
     (Client.FetchInput.ok []) { retryCount := 0 }
     (ClientEvent.scheduledRecordingsFetch 30000) (by decide)⟩

/-- C9: in the `part_004` polling session, every successful tick resets
the consecutive-error counter to 0; a failed tick with fewer than 5 prior
consecutive failures leaves the timer, the timer system and the displayed
error untouched and only bumps the counter; a failed tick with 5 prior
consecutive failures (the 6th in a row, exceeding the threshold) clears
the timer and surfaces the persistent error; and any run of at most 5
consecutive failed ticks leaves the timer armed and the error
unchanged. -/
theorem consecutive_error_threshold :
    (∀ (h : Nat) (d : BotData) (s : ClientState) (sys : TimerSys),
      (Client.pollTick h (.ok d) s sys).1.retryCount = 0) ∧
    (∀ (h : Nat) (m : String) (s : ClientState) (sys : TimerSys), s.retryCount < 5 →
      (Client.pollTick h (.err m) s sys).1.pollingInterval = s.pollingInterval ∧
      (Client.pollTick h (.err m) s sys).1.error = s.error ∧
      (Client.pollTick h (.err m) s sys).1.retryCount = s.retryCount + 1 ∧
      (Client.pollTick h (.err m) s sys).2.1 = sys ∧
      (Client.pollTick h (.err m) s sys).2.2 = []) ∧
    (∀ (h : Nat) (m : String) (s : ClientState) (sys : TimerSys), 5 ≤ s.retryCount →
      (Client.pollTick h (.err m) s sys).1.pollingInterval = none ∧
      (Client.pollTick h (.err m) s sys).1.error =
        some "Too many errors occurred. Please try again." ∧
      (Client.pollTick h (.err m) s sys).2.1 = clearIntervalSys sys h ∧
      (Client.pollTick h (.err m) s sys).2.2 = [ClientEvent.clearedTimer h]) ∧
    (∀ (h : Nat) (m : String) (k : Nat) (s : ClientState) (sys : TimerSys),
      s.pollingInterval = some h → s.retryCount = 0 → k ≤ 5 →
      (Client.runSession h (List.replicate k (TickInput.err m)) s sys).1.pollingInterval =
        some h ∧
      (Client.runSession h (List.replicate k (TickInput.err m)) s sys).1.error = s.error) := by
  refine ⟨?_, ?_, ?_, ?_⟩
  · intro h d s sys
    simp only [Client.pollTick]
  · intro h m s sys hlt
    rw [pollTick_err_small h m s sys hlt]
    simp
  · intro h m s sys hge
    rw [pollTick_err_exhausted h m s sys hge]
    simp
  · intro h m k s sys hown hrc hk
    have := runSession_errors_below h m k s sys hown (by omega)
    exact ⟨this.1, this.2.1⟩

/-- C9 witness. -/
theorem consecutive_error_threshold_witness :
    (Client.pollTick 0 (.ok joinedData) { pollingInterval := some 0, retryCount := 3 }
        ⟨1, [0]⟩).1.retryCount = 0 ∧
    (Client.pollTick 0 (.err "boom") { pollingInterval := some 0, retryCount := 2 }
        ⟨1, [0]⟩).1.error = ({ pollingInterval := some 0, retryCount := 2 } : ClientState).error ∧
    (Client.pollTick 0 (.err "boom") { pollingInterval := some 0, retryCount := 5 }
        ⟨1, [0]⟩).1.pollingInterval = none ∧
    (Client.runSession 0 (List.replicate 5 (TickInput.err "boom"))
        { pollingInterval := some 0 } ⟨1, [0]⟩).1.pollingInterval = some 0 :=
  ⟨consecutive_error_threshold.1 0 joinedData { pollingInterval := some 0, retryCount := 3 } ⟨1, [0]⟩,
   (consecutive_error_threshold.2.1 0 "boom" { pollingInterval := some 0, retryCount := 2 }
     ⟨1, [0]⟩ (by decide)).2.1,
   (consecutive_error_threshold.2.2.1 0 "boom" { pollingInterval := some 0, retryCount := 5 }
     ⟨1, [0]⟩ (by decide)).1,
   (consecutive_error_threshold.2.2.2 0 "boom" 5 { pollingInterval := some 0 } ⟨1, [0]⟩
     (by decide) (by decide) (by decide)).1⟩
